import Mathlib

set_option maxHeartbeats 1000000

namespace StockAgent

/-! # Verification of the python-stock-agent worker

Shallow embedding of `src/python-stock-agent/src/entry.py`.  Upstream HTTP
responses (market-data provider, news provider, AI completion service, email
provider) are modelled as oracle data carried in a `World` value; the
worker functions become pure Lean functions of the environment and that
oracle.  Machine reals are modelled as `Rat` (the worker only does exact
arithmetic on JSON numbers); Python string operations are modelled over
`List Char`, which matches Python code-point semantics. -/

/-! ### Substring infrastructure

Boolean substring tests over character lists, bridged to the
`<+:` / `<:+` / `<:+:` relations, plus a decomposition lemma for infixes of
concatenations.  These support the claims about the AI task text. -/

/-- Boolean prefix test on character lists. -/
def listPrefixB : List Char → List Char → Bool
  | [], _ => true
  | _ :: _, [] => false
  | a :: as, b :: bs => a == b && listPrefixB as bs

/-- Boolean infix (substring) test on character lists. -/
def listInfixB (pat : List Char) : List Char → Bool
  | [] => pat.isEmpty
  | c :: rest => listPrefixB pat (c :: rest) || listInfixB pat rest

/-- Boolean suffix test on character lists. -/
def listSuffixB (p l : List Char) : Bool := listPrefixB p.reverse l.reverse

/-- Python substring membership `pat in s`. -/
def strContainsB (s pat : String) : Bool := listInfixB pat.data s.data

theorem listPrefixB_iff : ∀ p l : List Char, listPrefixB p l = true ↔ p <+: l
  | [], l => by simp [listPrefixB]
  | _ :: _, [] => by simp [listPrefixB]
  | a :: as, b :: bs => by
      simp only [listPrefixB, Bool.and_eq_true, beq_iff_eq, listPrefixB_iff as bs,
        List.cons_prefix_cons]

theorem listInfixB_iff (p : List Char) : ∀ l : List Char, listInfixB p l = true ↔ p <:+: l
  | [] => by simp [listInfixB]
  | c :: rest => by
      rw [listInfixB, Bool.or_eq_true, listPrefixB_iff, listInfixB_iff p rest,
        List.infix_cons_iff]

theorem listSuffixB_iff (p l : List Char) : listSuffixB p l = true ↔ p <:+ l := by
  rw [listSuffixB, listPrefixB_iff]
  exact List.reverse_prefix

theorem strContainsB_iff (s pat : String) :
    strContainsB s pat = true ↔ pat.data <:+: s.data := listInfixB_iff _ _

/-- An infix of a concatenation lies in the left part, in the right part, or
spans the boundary (a nonempty proper prefix of it is a suffix of the left
part while the matching remainder is a prefix of the right part). -/
theorem infix_append_cases {p a b : List Char} (h : p <:+: a ++ b) :
    p <:+: a ∨ p <:+: b ∨
      ∃ i, 0 < i ∧ i < p.length ∧ p.take i <:+ a ∧ p.drop i <+: b := by
  obtain ⟨s, t, hst⟩ := h
  rw [List.append_assoc] at hst
  rcases List.append_eq_append_iff.mp hst with ⟨a1, ha, hpt⟩ | ⟨c1, _, hd⟩
  · rcases List.append_eq_append_iff.mp hpt with ⟨k, hk1, _⟩ | ⟨k, hp, hb⟩
    · exact Or.inl ⟨s, k, by rw [ha, hk1, List.append_assoc]⟩
    · by_cases hA : a1 = []
      · subst hA
        simp only [List.nil_append] at hp
        exact Or.inr (Or.inl ⟨[], t, by rw [hb, hp]; simp⟩)
      · by_cases hK : k = []
        · subst hK
          rw [List.append_nil] at hp
          subst hp
          exact Or.inl ((List.suffix_append s p).isInfix.trans (by rw [ha]))
        · refine Or.inr (Or.inr ⟨a1.length, ?_, ?_, ?_, ?_⟩)
          · exact List.length_pos.mpr hA
          · rw [hp, List.length_append]
            have := List.length_pos.mpr hK
            omega
          · rw [hp, List.take_left, ha]
            exact List.suffix_append s a1
          · rw [hp, List.drop_left, hb]
            exact List.prefix_append k t
  · exact Or.inr (Or.inl ⟨c1, t, by rw [hd, List.append_assoc]⟩)

theorem not_infix_append {p a b : List Char}
    (ha : ¬p <:+: a) (hb : ¬p <:+: b)
    (hspan : ∀ i, 0 < i → i < p.length → ¬(p.take i <:+ a ∧ p.drop i <+: b)) :
    ¬p <:+: a ++ b := by
  intro h
  rcases infix_append_cases h with h1 | h2 | ⟨i, hi0, hil, hta, hdb⟩
  · exact ha h1
  · exact hb h2
  · exact hspan i hi0 hil ⟨hta, hdb⟩

theorem infix_append_left_mono {p a : List Char} (b : List Char) (h : p <:+: a) :
    p <:+: a ++ b := by
  obtain ⟨s, t, hst⟩ := h
  exact ⟨s, t ++ b, by rw [← hst]; simp [List.append_assoc]⟩

theorem infix_append_right_mono {p b : List Char} (a : List Char) (h : p <:+: b) :
    p <:+: a ++ b := by
  obtain ⟨s, t, hst⟩ := h
  exact ⟨a ++ s, t, by rw [← hst]; simp [List.append_assoc]⟩

/-- Decidable check that no nonempty proper prefix of `p` is a suffix of `a`
(refutes boundary-spanning occurrences when `a` is the left part). -/
def spanLeftFreeB (p a : List Char) : Bool :=
  (List.range p.length).all fun i => i == 0 || !(listSuffixB (p.take i) a)

/-- Decidable check that no nonempty proper suffix of `p` is a prefix of `b`
(refutes boundary-spanning occurrences when `b` is the right part). -/
def spanRightFreeB (p b : List Char) : Bool :=
  (List.range p.length).all fun i => i == 0 || !(listPrefixB (p.drop i) b)

theorem spanLeftFreeB_spec {p a : List Char} (h : spanLeftFreeB p a = true) :
    ∀ i, 0 < i → i < p.length → ¬p.take i <:+ a := by
  intro i hi0 hil hsuf
  have hmem := List.all_eq_true.mp h i (List.mem_range.mpr hil)
  rw [Bool.or_eq_true, Bool.not_eq_true'] at hmem
  rcases hmem with h0 | hns
  · have : i = 0 := by simpa using h0
    omega
  · rw [(listSuffixB_iff _ _).mpr hsuf] at hns
    exact Bool.noConfusion hns

theorem spanRightFreeB_spec {p b : List Char} (h : spanRightFreeB p b = true) :
    ∀ i, 0 < i → i < p.length → ¬p.drop i <+: b := by
  intro i hi0 hil hpre
  have hmem := List.all_eq_true.mp h i (List.mem_range.mpr hil)
  rw [Bool.or_eq_true, Bool.not_eq_true'] at hmem
  rcases hmem with h0 | hns
  · have : i = 0 := by simpa using h0
    omega
  · rw [(listPrefixB_iff _ _).mpr hpre] at hns
    exact Bool.noConfusion hns

theorem prefix_head_eq {l₁ l₂ : List Char} (h : l₁ <+: l₂) (hne : l₁ ≠ []) :
    l₁.head? = l₂.head? := by
  obtain ⟨t, rfl⟩ := h
  cases l₁ with
  | nil => exact absurd rfl hne
  | cons c cs => rfl

/-- If the right part of a concatenation starts with a character that does not
occur in `p`, no occurrence of `p` can span the boundary. -/
theorem span_right_head {p b : List Char} {c : Char}
    (hb : b.head? = some c) (hc : c ∉ p) :
    ∀ i, 0 < i → i < p.length → ¬p.drop i <+: b := by
  intro i _ hil hpre
  have hne : p.drop i ≠ [] := by
    intro hnil
    rw [List.drop_eq_nil_iff] at hnil
    omega
  have hhd := prefix_head_eq hpre hne
  rw [hb] at hhd
  cases hd : p.drop i with
  | nil => exact hne hd
  | cons x xs =>
      rw [hd] at hhd
      have hx : x = c := by simpa using hhd
      apply hc
      have : x ∈ p.drop i := by rw [hd]; exact List.mem_cons_self x xs
      exact hx ▸ List.drop_subset i p this

/-! ### Python-semantics helpers -/

/-- Truthiness of an environment attribute: `hasattr(env, A) and env.A` for
string-valued attributes.  `none` models a missing (or `None`) attribute,
`some ""` an empty string — both are falsy in Python. -/
def pyTruthy : Option String → Bool
  | none => false
  | some s => !s.isEmpty

/-- Floor of a rational number (`Int.fdiv` is floor division). -/
def ratFloor (q : Rat) : Int := q.num.fdiv (q.den : Int)

/-- Python `round(x)`: round half to even (banker's rounding). -/
def roundHalfEven (x : Rat) : Int :=
  let f := ratFloor x
  let frac := x - (f : Rat)
  if frac < 1 / 2 then f
  else if 1 / 2 < frac then f + 1
  else if f % 2 = 0 then f else f + 1

/-- Python `round(x, 2)`. -/
def pyRound2 (x : Rat) : Rat := ((roundHalfEven (x * 100) : Int) : Rat) / 100

/-- `sep.join(parts)` / comma-joining used by the JSON serialization model. -/
def joinSep (sep : String) : List String → String
  | [] => ""
  | [x] => x
  | x :: y :: rest => x ++ sep ++ joinSep sep (y :: rest)

/-- Python `str.split(sep)` for a one-character separator, over code points. -/
def splitChar (sep : Char) : List Char → List (List Char)
  | [] => [[]]
  | c :: rest =>
      match splitChar sep rest with
      | [] => [[]]
      | cur :: others => if c = sep then [] :: cur :: others else (c :: cur) :: others

/-! ### Environment and upstream oracles

`Env` models the worker environment bindings probed via `hasattr`/truthiness
in `entry.py`.  `World` packages one run's upstream behaviour: the
market-data provider's per-symbol response, the process's string hash (Python
`hash(symbol)` is fixed within a process but salted across processes), the
local-time date formatter, the news provider's response, the AI completion
service's response and the email provider's success flag. -/

structure Env where
  SWARMS_API_KEY : Option String := none
  FMP_API_KEY : Option String := none
  MAILGUN_API_KEY : Option String := none
  MAILGUN_DOMAIN : Option String := none
  RECIPIENT_EMAIL : Option String := none

/-- `meta` section of a Yahoo chart payload (`result.get('meta', {})`).
`none` models an absent key, matching `meta.get(key, default)`. -/
structure ChartMeta where
  regularMarketPrice : Option Rat := none
  previousClose : Option Rat := none
  chartPreviousClose : Option Rat := none
  currency : Option String := none
  marketState : Option String := none
  fiftyTwoWeekHigh : Option Rat := none
  fiftyTwoWeekLow : Option Rat := none

/-- `indicators.quote[0]` arrays: entries are `none` for JSON `null` bars.
Field names carry an `L` suffix because `open` is a Lean keyword
(`openL` = `quote.get('open', [])`, etc.). -/
structure ChartQuote where
  openL : List (Option Rat) := []
  highL : List (Option Rat) := []
  lowL : List (Option Rat) := []
  closeL : List (Option Rat) := []
  volumeL : List (Option Rat) := []

/-- `chart.result[0]`: `quote`/`meta` are `none` when the section is missing
or an empty (falsy) dict — the cases `if not quote or not meta` rejects. -/
structure ChartResult where
  meta : Option ChartMeta := none
  quote : Option ChartQuote := none
  timestamp : List Nat := []

/-- One symbol's upstream behaviour at the market-data provider, as
discriminated by `fetch_market_data`:  non-ok HTTP status, a
`chart.error` payload, a payload with no `chart.result`, or chart data. -/
inductive FetchOutcome where
  | httpError (status : Nat) (statusText : String)
  | chartError (description : String)
  | noChartResult
  | payload (result : ChartResult)

/-- A raw article object from the news provider; `none` models a missing key
(`article.get(...)` defaults). -/
structure RawArticle where
  title : Option String := none
  text : Option String := none
  publishedDate : Option String := none
  symbol : Option String := none
  url : Option String := none
  deriving DecidableEq

/-- Parsed JSON body of the news response: a list, or any non-list value. -/
inductive NewsData where
  | jlist (articles : List RawArticle)
  | nonList

/-- News provider behaviour: non-ok HTTP status, or a parsed payload.
`errorAttr` models the `hasattr(news_data, 'error')` probe in the source
(`some e` makes that branch fire). -/
inductive NewsOutcome where
  | httpError (status : Nat) (statusText : String)
  | payload (errorAttr : Option String) (data : NewsData)

/-- One agent element of a list-shaped Swarms `output`. -/
structure AgentOut where
  role : Option String := none
  agent_name : Option String := none
  content : Option String := none
  response : Option String := none
  deriving DecidableEq

/-- The `output` field of a Swarms response: a list of agent objects, a
string, or some other JSON value (carried as its `json.dumps` rendering,
with an emptiness flag for Python truthiness of an empty dict). -/
inductive SwarmOutput where
  | agents (l : List AgentOut)
  | text (s : String)
  | object (isEmptyDict : Bool) (dump : String)
  deriving DecidableEq

/-- Python truthiness of the `output` value (`if not result.get('output')`). -/
def SwarmOutput.pyBool : SwarmOutput → Bool
  | .agents l => !l.isEmpty
  | .text s => !s.isEmpty
  | .object isEmptyDict _ => !isEmptyDict

/-- AI completion service behaviour: non-ok HTTP response (with body text),
or a JSON body with an optional `output` and the two optional billing-cost
locations (`usage.billing_info.total_cost`, `metadata.billing_info.total_cost`). -/
inductive SwarmsResponse where
  | httpError (status : Nat) (bodyText : String)
  | ok (output : Option SwarmOutput) (usageCost metadataCost : Option Rat)

/-- All upstream behaviour for one run. -/
structure World where
  chartOutcome : String → FetchOutcome
  pyHash : String → Int
  fmtDate : Nat → String
  newsOutcome : NewsOutcome
  swarmsResponse : SwarmsResponse
  emailOk : Bool

/-! ### Quote Fetcher (`fetch_market_data`) -/

/-- The success-shaped per-ticker dict built at entry.py:280-295.
`openPrice` is the dict key `'open'` (`open` is a Lean keyword). -/
structure QuoteRecord where
  price : Rat
  openPrice : Option Rat
  high : Option Rat
  low : Option Rat
  volume : Option Rat
  change : Rat
  change_percent : Rat
  rsi : Rat
  date : String
  currency : String
  marketState : String
  fiftyTwoWeekHigh : Option Rat
  fiftyTwoWeekLow : Option Rat
  deriving DecidableEq

/-- A per-ticker entry of the market-data mapping: either the full success
dict (whose `'error'` key is `None`) or the error dict `{'error': ...}`. -/
inductive TickerQuote where
  | success (q : QuoteRecord)
  | failure (error : String)
  deriving DecidableEq

/-- The `'error'` value of an entry (`None` on the success dict). -/
def TickerQuote.errorField : TickerQuote → Option String
  | .success _ => none
  | .failure e => some e

/-- Python truthiness of `data.get('error')`. -/
def quoteErrTruthy (t : TickerQuote) : Bool :=
  match t.errorField with
  | none => false
  | some e => !e.isEmpty

def symbols : List String := ["SPY", "QQQ", "AAPL", "MSFT", "TSLA", "NVDA"]

/-- The backward scan at entry.py:256-258: starting from
`last_index = len(timestamps) - 1`, decrement while
`not closes or closes[last_index] is None`.  Returns the located index and
its (non-null) close value, `none` when the scan ran off the front
(`last_index < 0`), or an error mirroring the `IndexError` raised when
`closes` is non-empty but shorter than the current index. -/
def findLastClose (closes : List (Option Rat)) : Nat → Except String (Option (Nat × Rat))
  | 0 => .ok none
  | n + 1 =>
      if closes.isEmpty then findLastClose closes n
      else
        match closes[n]? with
        | none => .error "list index out of range"
        | some none => findLastClose closes n
        | some (some v) => .ok (some (n, v))

/-- Loop body of `fetch_market_data` for one symbol (entry.py:210-299):
any raised error is converted to the `{'error': f'Failed to fetch data: {e}'}`
marker by the per-symbol `except` clause. -/
def fetchSymbol (w : World) (symbol : String) : TickerQuote :=
  match w.chartOutcome symbol with
  | .httpError status statusText =>
      .failure ("Failed to fetch data: HTTP " ++ toString status ++ ": " ++ statusText)
  | .chartError description =>
      .failure ("Failed to fetch data: API Error: " ++ description)
  | .noChartResult => .failure "Failed to fetch data: No chart data in response"
  | .payload res =>
      match res.quote, res.meta with
      | some quote, some meta =>
          if res.timestamp.isEmpty then
            .failure "Failed to fetch data: No timestamp data available"
          else
            match findLastClose quote.closeL res.timestamp.length with
            | .error e => .failure ("Failed to fetch data: " ++ e)
            | .ok none => .failure "Failed to fetch data: No valid price data found"
            | .ok (some (li, close)) =>
                -- close = closes[last_index]: the loop exit guarantees it is non-null,
                -- so the guarded read at entry.py:263 yields exactly this value.
                let openPrice : Option Rat :=
                  if ¬quote.openL.isEmpty ∧ li < quote.openL.length then
                    quote.openL.getD li none else some close
                let high : Option Rat :=
                  if ¬quote.highL.isEmpty ∧ li < quote.highL.length then
                    quote.highL.getD li none else some close
                let low : Option Rat :=
                  if ¬quote.lowL.isEmpty ∧ li < quote.lowL.length then
                    quote.lowL.getD li none else some close
                let volume : Option Rat :=
                  if ¬quote.volumeL.isEmpty ∧ li < quote.volumeL.length then
                    quote.volumeL.getD li none else some 0
                let current_price : Rat := meta.regularMarketPrice.getD close
                let previous_close : Option Rat :=
                  match meta.previousClose with
                  | some v => some v
                  | none =>
                      match meta.chartPreviousClose with
                      | some v => some v
                      | none => openPrice
                match previous_close with
                | none =>
                    -- current_price - None raises a TypeError, caught by the
                    -- per-symbol except clause.
                    .failure "Failed to fetch data: unsupported operand type(s) for -: \x27float\x27 and \x27NoneType\x27"
                | some pc =>
                    let day_change := current_price - pc
                    let day_change_percent : Rat :=
                      if pc = 0 then 0 else pyRound2 (day_change / pc * 100)
                    -- rsi = 50 + (hash(symbol) % 30 - 15); round(int, 1) = the int.
                    let rsi : Rat := ((50 + (w.pyHash symbol % 30 - 15) : Int) : Rat)
                    .success
                      { price := current_price
                        openPrice := openPrice
                        high := high
                        low := low
                        volume := volume
                        change := day_change
                        change_percent := day_change_percent
                        rsi := rsi
                        date := w.fmtDate (res.timestamp.getD li 0)
                        currency := meta.currency.getD "USD"
                        marketState := meta.marketState.getD "REGULAR"
                        fiftyTwoWeekHigh := meta.fiftyTwoWeekHigh
                        fiftyTwoWeekLow := meta.fiftyTwoWeekLow }
      | _, _ => .failure "Failed to fetch data: Missing quote or meta data"

/-- `fetch_market_data` (entry.py:200-304): one entry per symbol, in order;
a symbol's failure never aborts the batch. -/
def fetch_market_data (w : World) : List (String × TickerQuote) :=
  symbols.map fun s => (s, fetchSymbol w s)

/-- `valid_symbols` (entry.py:74-75). -/
def validSymbols (md : List (String × TickerQuote)) : List String :=
  (md.filter fun p => !quoteErrTruthy p.2).map Prod.fst

/-! ### News Fetcher (`fetch_market_news`) -/

/-- A processed news article (entry.py:351-357). -/
structure NewsArticle where
  title : String
  text : String
  publishedDate : String
  symbol : String
  url : String
  deriving DecidableEq

/-- The News Fetcher's result: a list of articles or a plain string. -/
inductive NewsResult where
  | articles (l : List NewsArticle)
  | msg (s : String)
  deriving DecidableEq

/-- Normalization of one raw article (entry.py:351-357).  The `text` field is
`article.get('text','')[:300] + '...'` when `article.get('text')` is truthy,
else `'No content available'`. -/
def processArticle (a : RawArticle) : NewsArticle :=
  { title := a.title.getD "No title"
    text :=
      match a.text with
      | some t =>
          if t.isEmpty then "No content available"
          else String.mk (t.data.take 300) ++ "..."
      | none => "No content available"
    publishedDate := a.publishedDate.getD "Unknown date"
    symbol := a.symbol.getD "N/A"
    url := a.url.getD "#" }

/-- The `except` clause of `fetch_market_news` (entry.py:370-380): maps the
raised error text to a status-specific unavailability string. -/
def newsErrorToResult (e : String) : NewsResult :=
  if strContainsB e "403" then
    .msg "Market news unavailable: Access forbidden. Please check your FMP_API_KEY is valid and not rate-limited."
  else if strContainsB e "401" then
    .msg "Market news unavailable: Invalid API key. Please verify your FMP_API_KEY."
  else if strContainsB e "429" then
    .msg "Market news unavailable: Rate limit exceeded. Please wait or upgrade your Financial Modeling Prep plan."
  else .msg ("Market news unavailable: " ++ e)

/-- `fetch_market_news` (entry.py:306-380). -/
def fetch_market_news (env : Env) (o : NewsOutcome) : NewsResult :=
  if !pyTruthy env.FMP_API_KEY then
    .msg "Market news unavailable: FMP_API_KEY not configured. Sign up at https://financialmodelingprep.com/developer/docs"
  else
    match o with
    | .httpError status statusText =>
        let base := "HTTP " ++ toString status ++ ": " ++ statusText
        let details :=
          if status = 403 then
            base ++ " - This usually means your API key is invalid, expired, or you\x27ve exceeded rate limits. Check your FMP_API_KEY or upgrade your plan."
          else if status = 401 then
            base ++ " - Invalid API key. Please check your FMP_API_KEY configuration."
          else if status = 429 then
            base ++ " - Rate limit exceeded. Please wait or upgrade your FMP plan."
          else if 500 ≤ status then
            base ++ " - Server error on Financial Modeling Prep side. Try again later."
          else base
        newsErrorToResult details
    | .payload errorAttr d =>
        match errorAttr with
        | some e => newsErrorToResult ("API Error: " ++ e)
        | none =>
            match d with
            | .jlist articles =>
                if articles.isEmpty then
                  .msg "Market news unavailable: No articles returned from API. This could indicate rate limits reached or no news available for selected tickers."
                else .articles ((articles.take 5).map processArticle)
            | .nonList => .msg "Market news unavailable: Invalid data format received from API"

/-! ### JSON serialization model

`json.dumps` on the run's data.  String escaping and the `indent=2`
whitespace layout are abstracted (the verified claims depend only on which
keys/values appear); numbers are rendered via `toString` on `Rat`. -/

def jstr (s : String) : String := "\"" ++ s ++ "\""

def jnum (q : Rat) : String := toString q

def joptNum : Option Rat → String
  | none => "null"
  | some q => jnum q

/-- `json.dumps` of one market-data entry. -/
def dumpsTicker : TickerQuote → String
  | .failure e => "\x7b\"error\": " ++ jstr e ++ "\x7d"
  | .success q =>
      "\x7b\"price\": " ++ jnum q.price ++
      ", \"open\": " ++ joptNum q.openPrice ++
      ", \"high\": " ++ joptNum q.high ++
      ", \"low\": " ++ joptNum q.low ++
      ", \"volume\": " ++ joptNum q.volume ++
      ", \"change\": " ++ jnum q.change ++
      ", \"change_percent\": " ++ jnum q.change_percent ++
      ", \"rsi\": " ++ jnum q.rsi ++
      ", \"date\": " ++ jstr q.date ++
      ", \"currency\": " ++ jstr q.currency ++
      ", \"marketState\": " ++ jstr q.marketState ++
      ", \"fiftyTwoWeekHigh\": " ++ joptNum q.fiftyTwoWeekHigh ++
      ", \"fiftyTwoWeekLow\": " ++ joptNum q.fiftyTwoWeekLow ++
      ", \"error\": null\x7d"

/-- Serialized entry of one symbol inside `json.dumps(market_data)`. -/
def dumpsEntry (p : String × TickerQuote) : String :=
  jstr p.1 ++ ": " ++ dumpsTicker p.2

/-- `json.dumps(market_data, indent=2)` (layout abstracted). -/
def dumpsMarketData (md : List (String × TickerQuote)) : String :=
  "\x7b" ++ joinSep ", " (md.map dumpsEntry) ++ "\x7d"

def dumpsArticle (a : NewsArticle) : String :=
  "\x7b\"title\": " ++ jstr a.title ++
  ", \"text\": " ++ jstr a.text ++
  ", \"publishedDate\": " ++ jstr a.publishedDate ++
  ", \"symbol\": " ++ jstr a.symbol ++
  ", \"url\": " ++ jstr a.url ++ "\x7d"

/-- `json.dumps(market_news, indent=2)` for either shape of the news value. -/
def dumpsNewsResult : NewsResult → String
  | .articles l => "[" ++ joinSep ", " (l.map dumpsArticle) ++ "]"
  | .msg s => jstr s

/-! ### Analysis Requester and Orchestrator (`handle_stock_analysis`) -/

/-- The `task` f-string of the swarm configuration (entry.py:126-138). -/
def buildTask (md : List (String × TickerQuote)) (news : NewsResult) : String :=
  let newsOk : Bool :=
    match news with
    | .articles _ => true
    | .msg s => !strContainsB s "unavailable"
  "Analyze the following real market data" ++
    (if newsOk then " and news" else "") ++
    ":\n\nMARKET DATA:\n" ++
    dumpsMarketData md ++
    "\n\n" ++
    (match news with
      | .msg s =>
          if strContainsB s "unavailable" then "NEWS STATUS: " ++ s
          else "MARKET NEWS:\n" ++ dumpsNewsResult news
      | .articles _ => "MARKET NEWS:\n" ++ dumpsNewsResult news) ++
    "\n\nProvide comprehensive analysis with:\n1. Technical analysis with key levels and trends\n2. Fundamental analysis " ++
    (if newsOk then "incorporating news catalysts"
     else "based on price action and market structure") ++
    "\n3. Trading recommendations with entry/exit points\n4. Risk assessment and position sizing\n5. Key levels to watch for tomorrow\x27s session"

def eq80 : String := String.mk (List.replicate 80 '=')

/-- One agent section of a list-shaped output (entry.py:167-170). -/
def formatAgent (a : AgentOut) : String :=
  "## 🤖 " ++ a.role.getD (a.agent_name.getD "AI Agent") ++ "\n\n" ++
    a.content.getD (a.response.getD "") ++ "\n\n" ++ eq80 ++ "\n"

/-- Output normalization (entry.py:166-175). -/
def formatOutput : SwarmOutput → String
  | .agents l => joinSep "\n" (l.map formatAgent)
  | .text s => s
  | .object _ dump => dump

/-- `cost = usage_cost or metadata_cost` (entry.py:162): Python `or` takes
the second operand when the first is falsy (`None` or `0`). -/
def pyOrCost (a b : Option Rat) : Option Rat :=
  match a with
  | some c => if c = 0 then b else some c
  | none => b

/-- Terminal value of one run: `{'success': True, 'analysis', 'symbolsAnalyzed',
'cost'}` or `{'success': False, 'error'}`. -/
inductive AnalysisResult where
  | ok (analysis : String) (symbolsAnalyzed : Nat) (cost : Option Rat)
  | err (error : String)
  deriving DecidableEq

def AnalysisResult.success : AnalysisResult → Bool
  | .ok _ _ _ => true
  | .err _ => false

def AnalysisResult.errMsg : AnalysisResult → Option String
  | .ok _ _ _ => none
  | .err e => some e

def AnalysisResult.costVal : AnalysisResult → Option Rat
  | .ok _ _ c => c
  | .err _ => none

/-- One run's observable outcome: the terminal result plus which external
services were contacted (market-data provider, news provider, AI completion
service, email provider), the task string posted to the AI service (when it
was contacted) and the email send result (when email was configured). -/
structure RunResult where
  result : AnalysisResult
  chartCalled : Bool
  newsCalled : Bool
  swarmsCalled : Bool
  emailCalled : Bool
  task : Option String
  emailSent : Option Bool
  deriving DecidableEq

/-- `send_email_report` (entry.py:382-463): a no-op returning `False` unless
all three email credentials are truthy; otherwise posts to the provider and
returns `response.ok`.  The HTML body and movers summary it builds are
presentation-only and are not modelled. -/
def send_email_report (env : Env) (emailOk : Bool) : Bool :=
  if !(pyTruthy env.MAILGUN_API_KEY && pyTruthy env.MAILGUN_DOMAIN &&
        pyTruthy env.RECIPIENT_EMAIL) then false
  else emailOk

/-- `handle_stock_analysis` (entry.py:58-198).  The `try/except` that wraps
the body converts each `raise ValueError(msg)` into `{'success': False,
'error': msg}`; `fetch_market_news` never raises, so its inner `except`
(entry.py:89-91) is unreachable. -/
def handle_stock_analysis (env : Env) (w : World) : RunResult :=
  if !pyTruthy env.SWARMS_API_KEY then
    { result := .err "SWARMS_API_KEY is required", chartCalled := false,
      newsCalled := false, swarmsCalled := false, emailCalled := false,
      task := none, emailSent := none }
  else
    let market_data := fetch_market_data w
    let valid_symbols := validSymbols market_data
    if valid_symbols.isEmpty then
      { result := .err "No valid market data retrieved", chartCalled := true,
        newsCalled := false, swarmsCalled := false, emailCalled := false,
        task := none, emailSent := none }
    else
      let market_news := fetch_market_news env w.newsOutcome
      let task := buildTask market_data market_news
      match w.swarmsResponse with
      | .httpError status bodyText =>
          { result := .err ("Swarms API error: " ++ toString status ++ " - " ++ bodyText),
            chartCalled := true, newsCalled := true, swarmsCalled := true,
            emailCalled := false, task := some task, emailSent := none }
      | .ok output usageCost metadataCost =>
          let outOk : Bool :=
            match output with
            | none => false
            | some out => out.pyBool
          match output, outOk with
          | some out, true =>
              let cost := pyOrCost usageCost metadataCost
              let formatted := formatOutput out
              let emailConfigured :=
                pyTruthy env.MAILGUN_API_KEY && pyTruthy env.MAILGUN_DOMAIN &&
                  pyTruthy env.RECIPIENT_EMAIL
              { result := .ok formatted valid_symbols.length cost,
                chartCalled := true, newsCalled := true, swarmsCalled := true,
                emailCalled := emailConfigured, task := some task,
                emailSent :=
                  if emailConfigured then some (send_email_report env w.emailOk)
                  else none }
          | _, _ =>
              { result := .err "No analysis output received from Swarms API",
                chartCalled := true, newsCalled := true, swarmsCalled := true,
                emailCalled := false, task := some task, emailSent := none }

/-! ### Request Router (`on_fetch`) -/

/-- `path = url.split('?')[0].split('/')[-1] if '/' in url else ''`
(entry.py:16). -/
def extractPath (url : String) : String :=
  if url.data.contains '/' then
    String.mk ((splitChar '/' ((splitChar '?' url.data).headD [])).getLastD [])
  else ""

/-- Response bodies of the router.  `dashboardHtml` stands for the static
`get_dashboard_html()` literal and `triggerJson`/`statusJson` for the JSON
envelopes (their timestamp fields and static text are routing-irrelevant and
abstracted). -/
inductive RespBody where
  | dashboardHtml
  | triggerJson (r : RunResult)
  | statusJson
  | text (s : String)
  deriving DecidableEq

structure PyResponse where
  body : RespBody
  status : Nat := 200
  deriving DecidableEq

/-- `on_fetch` (entry.py:11-50).  The modelled orchestrator is total, so the
`except` arm of the `/trigger` branch (HTTP 500) is unreachable. -/
def on_fetch (url : String) (env : Env) (w : World) : PyResponse :=
  let path := extractPath url
  if path = "" then { body := .dashboardHtml, status := 200 }
  else if path = "trigger" then
    { body := .triggerJson (handle_stock_analysis env w), status := 200 }
  else if path = "status" then { body := .statusJson, status := 200 }
  else { body := .text "Not Found", status := 404 }

/-- Modelled from the spec: the inbound request's URL path (the `Path` column
of the spec §6 routing table) — everything from the first `/` after the
authority up to the query string.  The source never computes this; it is
needed to state the routing claim, whose wording quantifies over request
paths. -/
def urlPath (url : String) : String :=
  let noQuery := (splitChar '?' url.data).headD []
  "/" ++ joinSep "/" (((splitChar '/' noQuery).drop 3).map String.mk)

/-! ### Concrete environments and worlds used by witnesses -/

/-- Environment with no bindings at all. -/
def envNone : Env := {}

/-- Environment with the mandatory AI credential (and a news key). -/
def envOk : Env := { SWARMS_API_KEY := some "k", FMP_API_KEY := some "f" }

/-- A market-data payload with one valid bar. -/
def chartOkOutcome : FetchOutcome :=
  .payload
    { meta := some { regularMarketPrice := some 10, previousClose := some 5 }
      quote := some
        { openL := [some 3], highL := [some 1], lowL := [some 1],
          closeL := [some 4], volumeL := [some 1] }
      timestamp := [0] }

/-- World where every market-data request fails with HTTP 500. -/
def wAllFail : World :=
  { chartOutcome := fun _ => .httpError 500 "boom"
    pyHash := fun _ => 0
    fmtDate := fun _ => "2024-01-01"
    newsOutcome := .payload none .nonList
    swarmsResponse := .ok (some (.text "narrative")) none none
    emailOk := false }

/-- World where every market-data request succeeds. -/
def wQuotes : World :=
  { chartOutcome := fun _ => chartOkOutcome
    pyHash := fun _ => 0
    fmtDate := fun _ => "d"
    newsOutcome := .payload none (.jlist [])
    swarmsResponse := .ok (some (.text "narrative")) none none
    emailOk := false }

/-- Like `wQuotes` but in a later run with a different date and a failing AI
service; `pyHash` (the per-process string hash) is unchanged. -/
def wQuotes2 : World :=
  { wQuotes with fmtDate := fun _ => "e", swarmsResponse := .httpError 500 "x" }

/-- The success record `fetchSymbol wQuotes s` produces for every symbol
hashing to 0. -/
def qSPY : QuoteRecord :=
  { price := 10, openPrice := some 3, high := some 1, low := some 1,
    volume := some 1, change := 5, change_percent := 100, rsi := 35,
    date := "d", currency := "USD", marketState := "REGULAR",
    fiftyTwoWeekHigh := none, fiftyTwoWeekLow := none }

/-- Same record from the `wQuotes2` run (only the date differs). -/
def qSPY2 : QuoteRecord := { qSPY with date := "e" }

/-! ### Helper lemmas -/

theorem isEmpty_false_append (a b : String) (h : a.isEmpty = false) :
    (a ++ b).isEmpty = false := by
  rw [Bool.eq_false_iff]
  intro hab
  have h2 : a ++ b = "" := (String.isEmpty_iff _).mp hab
  have h3 : a.data ++ b.data = [] := by
    have h4 := congrArg String.data h2
    simpa using h4
  have h5 : a = "" := String.ext (List.append_eq_nil.mp h3).1
  rw [Bool.eq_false_iff] at h
  exact h ((String.isEmpty_iff a).mpr h5)

theorem strContains_append_left {a pat : String} (b : String)
    (h : strContainsB a pat = true) : strContainsB (a ++ b) pat = true := by
  rw [strContainsB_iff] at h ⊢
  rw [String.data_append]
  exact infix_append_left_mono _ h

theorem strContains_append_right {b pat : String} (a : String)
    (h : strContainsB b pat = true) : strContainsB (a ++ b) pat = true := by
  rw [strContainsB_iff] at h ⊢
  rw [String.data_append]
  exact infix_append_right_mono _ h

/-- Every failure marker built by the per-symbol loop carries the
`'Failed to fetch data: '` prefix (entry.py:299). -/
theorem fetchSymbol_cases (w : World) (s : String) :
    (∃ q, fetchSymbol w s = .success q) ∨
      ∃ e, fetchSymbol w s = .failure ("Failed to fetch data: " ++ e) := by
  simp only [fetchSymbol]
  repeat' split
  all_goals first
    | exact Or.inl ⟨_, rfl⟩
    | exact Or.inr ⟨_, rfl⟩

/-- Entries whose upstream fetch failed are filtered out of `valid_symbols`;
if every symbol failed, `valid_symbols` is empty. -/
theorem validSymbols_nil_of_all_failure {w : World}
    (h : ∀ p ∈ fetch_market_data w, ∃ e, p.2 = TickerQuote.failure e) :
    validSymbols (fetch_market_data w) = [] := by
  rw [validSymbols]
  have hf : (fetch_market_data w).filter (fun p => !quoteErrTruthy p.2) = [] := by
    rw [List.filter_eq_nil_iff]
    intro p hp
    obtain ⟨s, _, rfl⟩ := List.mem_map.mp hp
    rcases fetchSymbol_cases w s with ⟨q, hq⟩ | ⟨e, he⟩
    · obtain ⟨e0, he0⟩ := h _ hp
      rw [hq] at he0
      exact absurd he0 (by simp)
    · rw [he]
      simp [quoteErrTruthy, TickerQuote.errorField,
        isEmpty_false_append "Failed to fetch data: " e rfl]
  rw [hf]
  rfl

/-! ### Claim C1

Observable fields of a per-ticker entry, as a consumer reading the dict would
see them (`none` = the key is absent or its value is `None`). -/

def TickerQuote.priceField : TickerQuote → Option Rat
  | .success q => some q.price
  | .failure _ => none

/-- The `'open'` value: present on every success dict, but it mirrors the
upstream bar and is `None` when the bar's open was null (entry.py:264). -/
def TickerQuote.openField : TickerQuote → Option Rat
  | .success q => q.openPrice
  | .failure _ => none

def TickerQuote.highField : TickerQuote → Option Rat
  | .success q => q.high
  | .failure _ => none

def TickerQuote.lowField : TickerQuote → Option Rat
  | .success q => q.low
  | .failure _ => none

def TickerQuote.volumeField : TickerQuote → Option Rat
  | .success q => q.volume
  | .failure _ => none

def TickerQuote.changeField : TickerQuote → Option Rat
  | .success q => some q.change
  | .failure _ => none

def TickerQuote.changePercentField : TickerQuote → Option Rat
  | .success q => some q.change_percent
  | .failure _ => none

def TickerQuote.rsiField : TickerQuote → Option Rat
  | .success q => some q.rsi
  | .failure _ => none

def TickerQuote.dateField : TickerQuote → Option String
  | .success q => some q.date
  | .failure _ => none

def TickerQuote.currencyField : TickerQuote → Option String
  | .success q => some q.currency
  | .failure _ => none

def TickerQuote.marketStateField : TickerQuote → Option String
  | .success q => some q.marketState
  | .failure _ => none

/-- Formalization of the claim's words "all price fields populated": every
price field of the entry carries a (non-null) value — in particular the four
bar fields open/high/low/volume, which the §3 data model types as plain
numerics. -/
def allPriceFieldsPopulated (t : TickerQuote) : Prop :=
  t.priceField ≠ none ∧ t.openField ≠ none ∧ t.highField ≠ none ∧
    t.lowField ≠ none ∧ t.volumeField ≠ none ∧ t.changeField ≠ none ∧
    t.changePercentField ≠ none ∧ t.rsiField ≠ none

/-- The TickerQuote invariant exactly as the claim states it: exactly one of
(all price fields populated with error absent/`None`) or (error populated). -/
def claimedTickerInvariant (t : TickerQuote) : Prop :=
  Xor' (allPriceFieldsPopulated t ∧ t.errorField = none) (∃ e, t.errorField = some e)

/-- The invariant the code actually maintains: exactly one of (success dict —
error `None`, with price, change, change_percent, rsi, date, currency and
marketState always populated; open/high/low/volume present but possibly
null) or (error populated). -/
def tickerInvariant (t : TickerQuote) : Prop :=
  Xor'
    (t.errorField = none ∧ t.priceField ≠ none ∧ t.changeField ≠ none ∧
      t.changePercentField ≠ none ∧ t.rsiField ≠ none ∧ t.dateField ≠ none ∧
      t.currencyField ≠ none ∧ t.marketStateField ≠ none)
    (∃ e, t.errorField = some e)

theorem tickerInvariant_holds (t : TickerQuote) : tickerInvariant t := by
  cases t with
  | success q =>
      refine Or.inl ⟨⟨rfl, ?_, ?_, ?_, ?_, ?_, ?_, ?_⟩, ?_⟩
      any_goals exact Option.noConfusion
      rintro ⟨e, he⟩
      exact Option.noConfusion he
  | failure e =>
      refine Or.inr ⟨⟨e, rfl⟩, ?_⟩
      rintro ⟨hq, -⟩
      exact Option.noConfusion hq

/-- Claim C1 (amended): for every run, the Quote Fetcher's mapping has
exactly one entry per requested symbol — its key list is exactly the
(duplicate-free) symbol list — and every entry is exactly one of (success
dict: error `None`, with price, change, change_percent, rsi, date, currency
and marketState populated, while open/high/low/volume mirror the upstream
bar and may be null) or (error dict: error populated). -/
theorem c1_ticker_entries (w : World) :
    (fetch_market_data w).map Prod.fst = symbols ∧ symbols.Nodup ∧
      ∀ p ∈ fetch_market_data w, tickerInvariant p.2 :=
  ⟨by rfl, by decide, fun p _ => tickerInvariant_holds p.2⟩

section
attribute [local semireducible] Rat.mul Rat.add Rat.sub Rat.inv

/-- A chart payload whose located bar has a non-null close but null
open/high/low/volume values — Yahoo bars can be partially null, and only the
close is scanned for nullness (entry.py:256-258). -/
def chartNullBarOutcome : FetchOutcome :=
  .payload
    { meta := some { regularMarketPrice := some 10, previousClose := some 5 }
      quote := some
        { openL := [none], highL := [none], lowL := [none],
          closeL := [some 4], volumeL := [none] }
      timestamp := [0] }

def wNullBar : World := { wQuotes with chartOutcome := fun _ => chartNullBarOutcome }

/-- The success record `fetchSymbol wNullBar s` produces: error `None`, yet
`'open'`, `'high'`, `'low'` and `'volume'` are all null. -/
def qNullBar : QuoteRecord :=
  { price := 10, openPrice := none, high := none, low := none,
    volume := none, change := 5, change_percent := 100, rsi := 35,
    date := "d", currency := "USD", marketState := "REGULAR",
    fiftyTwoWeekHigh := none, fiftyTwoWeekLow := none }

/-- Counterexample to C1 as stated: at a run whose upstream bar carries a
null open (entry.py:263-267 copies `opens[last_index]` verbatim), the SPY
entry is a success dict with error `None` whose `'open'` field is null, so
"all price fields populated" fails while no error is populated — the claimed
exactly-one-of invariant is false at this reachable entry. -/
theorem c1_ticker_entries_counterexample :
    List.lookup "SPY" (fetch_market_data wNullBar) =
      some (TickerQuote.success qNullBar) ∧
    (TickerQuote.success qNullBar).openField = none ∧
    (TickerQuote.success qNullBar).errorField = none ∧
    ¬claimedTickerInvariant (TickerQuote.success qNullBar) := by
  refine ⟨by rfl, rfl, rfl, ?_⟩
  rintro (⟨⟨hall, -⟩, -⟩ | ⟨⟨e, he⟩, -⟩)
  · exact hall.2.1 rfl
  · exact Option.noConfusion he

end

/-! ### Claim C3 -/

/-- Claim C3: with the mandatory AI-service credential absent or empty, the
run terminates with `{'success': False, 'error': 'SWARMS_API_KEY is
required'}` and no external service (market data, news, AI, email) is
contacted. -/
theorem c3_missing_key (env : Env) (w : World)
    (h : pyTruthy env.SWARMS_API_KEY = false) :
    handle_stock_analysis env w =
      { result := .err "SWARMS_API_KEY is required", chartCalled := false,
        newsCalled := false, swarmsCalled := false, emailCalled := false,
        task := none, emailSent := none } := by
  simp [handle_stock_analysis, h]

/-- Witness for C3 at the empty environment. -/
theorem c3_missing_key_witness :
    pyTruthy envNone.SWARMS_API_KEY = false ∧
      handle_stock_analysis envNone wAllFail =
        { result := .err "SWARMS_API_KEY is required", chartCalled := false,
          newsCalled := false, swarmsCalled := false, emailCalled := false,
          task := none, emailSent := none } :=
  ⟨rfl, c3_missing_key envNone wAllFail rfl⟩

/-! ### Claim C2 -/

/-- Claim C2: when every market-data entry carries an error marker (zero valid
symbols), the run terminates with `{'success': False, 'error': 'No valid
market data retrieved'}` and neither the AI completion service nor the email
provider is contacted. -/
theorem c2_all_errors (env : Env) (w : World)
    (hkey : pyTruthy env.SWARMS_API_KEY = true)
    (hfail : ∀ p ∈ fetch_market_data w, ∃ e, p.2 = TickerQuote.failure e) :
    handle_stock_analysis env w =
      { result := .err "No valid market data retrieved", chartCalled := true,
        newsCalled := false, swarmsCalled := false, emailCalled := false,
        task := none, emailSent := none } := by
  have hv := validSymbols_nil_of_all_failure hfail
  simp [handle_stock_analysis, hkey, hv]

/-- Witness for C2: a run where all six upstream fetches return HTTP 500. -/
theorem c2_all_errors_witness :
    pyTruthy envOk.SWARMS_API_KEY = true ∧
      handle_stock_analysis envOk wAllFail =
        { result := .err "No valid market data retrieved", chartCalled := true,
          newsCalled := false, swarmsCalled := false, emailCalled := false,
          task := none, emailSent := none } := by
  refine ⟨rfl, c2_all_errors envOk wAllFail rfl ?_⟩
  intro p hp
  have hl : fetch_market_data wAllFail =
      [("SPY", TickerQuote.failure "Failed to fetch data: HTTP 500: boom"),
       ("QQQ", TickerQuote.failure "Failed to fetch data: HTTP 500: boom"),
       ("AAPL", TickerQuote.failure "Failed to fetch data: HTTP 500: boom"),
       ("MSFT", TickerQuote.failure "Failed to fetch data: HTTP 500: boom"),
       ("TSLA", TickerQuote.failure "Failed to fetch data: HTTP 500: boom"),
       ("NVDA", TickerQuote.failure "Failed to fetch data: HTTP 500: boom")] := rfl
  rw [hl] at hp
  fin_cases hp <;> exact ⟨_, rfl⟩

/-! ### News Fetcher lemmas and claims C4, C10 -/

/-- Every unavailability string produced by the news `except` mapper contains
`"unavailable"`. -/
theorem newsErrorToResult_unavailable (e : String) :
    ∃ s, newsErrorToResult e = NewsResult.msg s ∧ strContainsB s "unavailable" = true := by
  unfold newsErrorToResult
  repeat' split
  · exact ⟨_, rfl, by rfl⟩
  · exact ⟨_, rfl, by rfl⟩
  · exact ⟨_, rfl, by rfl⟩
  · exact ⟨_, rfl, strContains_append_left e (by rfl)⟩

/-- Shape of every News Fetcher result: the first five upstream articles
normalized by `processArticle`, or a string containing `"unavailable"`. -/
theorem fetch_news_shape (env : Env) (o : NewsOutcome) :
    (∃ raws : List RawArticle, fetch_market_news env o =
        NewsResult.articles ((raws.take 5).map processArticle)) ∨
      ∃ s, fetch_market_news env o = NewsResult.msg s ∧ strContainsB s "unavailable" = true := by
  simp only [fetch_market_news]
  repeat' split
  all_goals first
    | exact Or.inr ⟨_, rfl, by rfl⟩
    | exact Or.inr (newsErrorToResult_unavailable _)
    | exact Or.inl ⟨_, rfl⟩

/-- Claim C4: `fetch_market_news` never raises — for every environment and
every upstream behaviour (missing key, any HTTP status, error attribute,
non-list payload, empty or non-empty list) it returns either at most five
`NewsArticle` records or a string containing `"unavailable"`. -/
theorem c4_news_never_raises (env : Env) (o : NewsOutcome) :
    (∃ l, fetch_market_news env o = NewsResult.articles l ∧ l.length ≤ 5) ∨
      ∃ s, fetch_market_news env o = NewsResult.msg s ∧ strContainsB s "unavailable" = true := by
  rcases fetch_news_shape env o with ⟨raws, hr⟩ | ⟨s, hs, hc⟩
  · refine Or.inl ⟨_, hr, ?_⟩
    rw [List.length_map, List.length_take]
    exact Nat.min_le_left _ _
  · exact Or.inr ⟨s, hs, hc⟩

/-- Per-article text normalization facts (entry.py:353). -/
theorem processArticle_text (raw : RawArticle) :
    (processArticle raw).text.length ≤ 303 ∧
      (pyTruthy raw.text = true → "...".data <:+ (processArticle raw).text.data) ∧
      (pyTruthy raw.text = false → (processArticle raw).text = "No content available") := by
  cases htext : raw.text with
  | none =>
      have hform : (processArticle raw).text = "No content available" := by
        simp [processArticle, htext]
      rw [hform]
      refine ⟨by decide, ?_, fun _ => rfl⟩
      intro htr
      simp [pyTruthy] at htr
  | some t =>
      by_cases ht : t.isEmpty = true
      · have hform : (processArticle raw).text = "No content available" := by
          simp [processArticle, htext, ht]
        rw [hform]
        refine ⟨by decide, ?_, fun _ => rfl⟩
        intro htr
        simp [pyTruthy, ht] at htr
      · have ht2 : t.isEmpty = false := by rw [Bool.eq_false_iff]; exact ht
        have hform : (processArticle raw).text = String.mk (t.data.take 300) ++ "..." := by
          simp [processArticle, htext, ht]
        refine ⟨?_, fun _ => ?_, fun hfalse => ?_⟩
        · rw [hform, String.length_append]
          have h1 : (String.mk (t.data.take 300)).length ≤ 300 := by
            show (t.data.take 300).length ≤ 300
            rw [List.length_take]
            exact Nat.min_le_left _ _
          have h2 : ("..." : String).length = 3 := by decide
          omega
        · rw [hform, String.data_append]
          exact List.suffix_append _ _
        · simp [pyTruthy, ht2] at hfalse

/-- Claim C10: every article returned by the News Fetcher has a text of at
most 303 characters which is either the `'No content available'` placeholder
or ends in the `'...'` marker; moreover the normalizer appends `'...'`
whenever the source text is truthy (even when shorter than 300 characters,
so nothing was truncated) and substitutes `'No content available'` exactly
when the source text is empty or absent. -/
theorem c10_news_text (env : Env) (o : NewsOutcome) (l : List NewsArticle)
    (h : fetch_market_news env o = NewsResult.articles l) :
    (∀ a ∈ l, a.text.length ≤ 303 ∧
      (a.text = "No content available" ∨ "...".data <:+ a.text.data)) ∧
    ∀ raw : RawArticle,
      (pyTruthy raw.text = true → "...".data <:+ (processArticle raw).text.data) ∧
      (pyTruthy raw.text = false → (processArticle raw).text = "No content available") := by
  constructor
  · intro a ha
    have hmap : ∃ raw, a = processArticle raw := by
      rcases fetch_news_shape env o with ⟨raws, hr⟩ | ⟨s, hs, -⟩
      · rw [h] at hr
        injection hr with h2
        rw [h2] at ha
        obtain ⟨raw, -, hraw⟩ := List.mem_map.mp ha
        exact ⟨raw, hraw.symm⟩
      · rw [h] at hs
        exact NewsResult.noConfusion hs
    obtain ⟨raw, rfl⟩ := hmap
    obtain ⟨h1, h2, h3⟩ := processArticle_text raw
    refine ⟨h1, ?_⟩
    cases htr : pyTruthy raw.text with
    | true => exact Or.inr (h2 htr)
    | false => exact Or.inl (h3 htr)
  · intro raw
    exact ⟨(processArticle_text raw).2.1, (processArticle_text raw).2.2⟩

/-- Concrete articles for the C10 witness. -/
def rawHi : RawArticle := { text := some "hi" }

def rawEmpty : RawArticle := {}

def oNews : NewsOutcome := .payload none (.jlist [rawHi, rawEmpty])

def lNews : List NewsArticle := [processArticle rawHi, processArticle rawEmpty]

/-- Witness for C10 on a concrete two-article feed: a 2-character source text
is still suffixed with `'...'`, and an absent text becomes the placeholder. -/
theorem c10_news_text_witness :
    (processArticle rawHi).text.length ≤ 303 ∧
      ((processArticle rawHi).text = "No content available" ∨
        "...".data <:+ (processArticle rawHi).text.data) ∧
      (processArticle rawEmpty).text = "No content available" := by
  have H := c10_news_text envOk oNews lNews rfl
  refine ⟨(H.1 (processArticle rawHi) ?_).1, (H.1 (processArticle rawHi) ?_).2,
    (H.2 rawEmpty).2 rfl⟩
  · exact List.mem_cons_self _ _
  · exact List.mem_cons_self _ _

/-! ### Claim C8 (rsi range and per-process determinism) -/

theorem lookup_map_self {β : Type} (f : String → β) :
    ∀ (l : List String) (s : String) (t : β),
      (l.map fun x => (x, f x)).lookup s = some t → t = f s
  | [], s, t, h => by simp [List.lookup] at h
  | a :: rest, s, t, h => by
      rw [List.map_cons, List.lookup] at h
      split at h
      · next heq =>
          injection h with h2
          rw [← h2]
          rw [eq_of_beq heq]
      · exact lookup_map_self f rest s t h

/-- The rsi of a success record is exactly `50 + (hash(symbol) % 30 - 15)`. -/
theorem fetchSymbol_success_rsi {w : World} {s : String} {q : QuoteRecord}
    (h : fetchSymbol w s = TickerQuote.success q) :
    q.rsi = ((50 + (w.pyHash s % 30 - 15) : Int) : Rat) := by
  simp only [fetchSymbol] at h
  repeat' split at h
  any_goals exact TickerQuote.noConfusion h
  all_goals (injection h with h2; subst h2; rfl)

theorem rsi_int_bounds (h : Int) :
    (35 : Int) ≤ 50 + (h % 30 - 15) ∧ 50 + (h % 30 - 15) ≤ 65 := by
  have h1 : 0 ≤ h % 30 := Int.emod_nonneg h (by norm_num)
  have h2 : h % 30 < 30 := Int.emod_lt_of_pos h (by norm_num)
  omega

/-- Claim C8: every success entry of the market-data mapping has
`rsi ∈ [35, 65]`, and rsi is deterministic per symbol within a process: any
two runs sharing the process hash function produce the same rsi for the same
symbol, whatever else the upstream data does. -/
theorem c8_rsi (w : World) (s : String) (q : QuoteRecord)
    (h : (fetch_market_data w).lookup s = some (TickerQuote.success q)) :
    (35 ≤ q.rsi ∧ q.rsi ≤ 65) ∧
      ∀ (w2 : World) (q2 : QuoteRecord), w2.pyHash = w.pyHash →
        (fetch_market_data w2).lookup s = some (TickerQuote.success q2) →
        q2.rsi = q.rsi := by
  have hs : fetchSymbol w s = TickerQuote.success q :=
    (lookup_map_self (fetchSymbol w) symbols s _ h).symm
  have hrsi := fetchSymbol_success_rsi hs
  constructor
  · obtain ⟨hb1, hb2⟩ := rsi_int_bounds (w.pyHash s)
    rw [hrsi]
    constructor
    · exact_mod_cast hb1
    · exact_mod_cast hb2
  · intro w2 q2 hhash h2
    have hs2 : fetchSymbol w2 s = TickerQuote.success q2 :=
      (lookup_map_self (fetchSymbol w2) symbols s _ h2).symm
    have hrsi2 := fetchSymbol_success_rsi hs2
    rw [hrsi, hrsi2, hhash]

section
-- Batteries marks the rational operations irreducible; witnesses evaluate
-- them on concrete inputs, so allow unfolding locally.
attribute [local semireducible] Rat.mul Rat.add Rat.sub Rat.inv

/-- Witness for C8: two runs over the same process hash with different
upstream data (different date formatter, different AI-service behaviour)
produce the same in-range rsi for SPY. -/
theorem c8_rsi_witness :
    (35 ≤ qSPY.rsi ∧ qSPY.rsi ≤ 65) ∧ qSPY2.rsi = qSPY.rsi := by
  have H := c8_rsi wQuotes "SPY" qSPY (by rfl)
  exact ⟨H.1, H.2 wQuotes2 qSPY2 rfl (by rfl)⟩

end

/-! ### Claim C6 (routing is by final path segment, not by path) -/

/-- Counterexample to C6 as stated: the request for
`https://example.com/foo/trigger` has URL path `/foo/trigger`, which is none
of `/`, `/trigger`, `/status`, yet the router serves the trigger response
with HTTP 200 instead of the 404 `Not Found` response, because dispatch
matches only the final path segment. -/
theorem c6_counterexample :
    urlPath "https://example.com/foo/trigger" = "/foo/trigger" ∧
    ("/foo/trigger" ≠ "/" ∧ "/foo/trigger" ≠ "/trigger" ∧ "/foo/trigger" ≠ "/status") ∧
    (on_fetch "https://example.com/foo/trigger" envOk wAllFail).status = 200 ∧
    (on_fetch "https://example.com/foo/trigger" envOk wAllFail).body ≠
      RespBody.text "Not Found" := by
  refine ⟨by rfl, ⟨by decide, by decide, by decide⟩, by rfl, by decide⟩

/-- Claim C6 (amended): for every inbound request whose final path segment —
the text after the last `/`, query string stripped — is none of `''`
(dashboard), `'trigger'` and `'status'`, the router returns the plain-text
body `Not Found` with HTTP status 404. -/
theorem c6_not_found (url : String) (env : Env) (w : World)
    (h1 : extractPath url ≠ "") (h2 : extractPath url ≠ "trigger")
    (h3 : extractPath url ≠ "status") :
    on_fetch url env w = { body := RespBody.text "Not Found", status := 404 } := by
  simp [on_fetch, h1, h2, h3]

/-- Witness for the amended C6 at a concrete unknown path. -/
theorem c6_not_found_witness :
    (extractPath "https://example.com/nope" ≠ "" ∧
      extractPath "https://example.com/nope" ≠ "trigger" ∧
      extractPath "https://example.com/nope" ≠ "status") ∧
    on_fetch "https://example.com/nope" envOk wAllFail =
      { body := RespBody.text "Not Found", status := 404 } :=
  ⟨⟨by decide, by decide, by decide⟩,
    c6_not_found _ envOk wAllFail (by decide) (by decide) (by decide)⟩

/-! ### Success path of the orchestrator, and claim C9 -/

/-- With the credential present, at least one valid symbol, and a truthy
`output` from the AI service, the orchestrator reaches DONE and reports the
formatted analysis, the valid-symbol count, and the `or`-extracted cost. -/
theorem handle_success_path (env : Env) (w : World)
    (hkey : pyTruthy env.SWARMS_API_KEY = true)
    (hvalid : validSymbols (fetch_market_data w) ≠ [])
    (out : SwarmOutput) (uc mc : Option Rat)
    (hresp : w.swarmsResponse = .ok (some out) uc mc)
    (hout : out.pyBool = true) :
    handle_stock_analysis env w =
      { result := .ok (formatOutput out)
          (validSymbols (fetch_market_data w)).length (pyOrCost uc mc),
        chartCalled := true, newsCalled := true, swarmsCalled := true,
        emailCalled := pyTruthy env.MAILGUN_API_KEY && pyTruthy env.MAILGUN_DOMAIN &&
          pyTruthy env.RECIPIENT_EMAIL,
        task := some (buildTask (fetch_market_data w)
          (fetch_market_news env w.newsOutcome)),
        emailSent :=
          if pyTruthy env.MAILGUN_API_KEY && pyTruthy env.MAILGUN_DOMAIN &&
              pyTruthy env.RECIPIENT_EMAIL then
            some (send_email_report env w.emailOk)
          else none } := by
  have hv : (validSymbols (fetch_market_data w)).isEmpty = false := by
    rw [List.isEmpty_eq_false]
    exact hvalid
  simp [handle_stock_analysis, hkey, hv, hresp, hout]

/-- Claim C9 (amended): on the success path, the reported cost is
`usage_cost or metadata_cost` in the Python sense: when
`usage.billing_info.total_cost` is present and nonzero it is preferred; when
it is absent or zero (falsy), `metadata.billing_info.total_cost` (or `None`)
is reported instead. -/
theorem c9_cost (env : Env) (w : World)
    (hkey : pyTruthy env.SWARMS_API_KEY = true)
    (hvalid : validSymbols (fetch_market_data w) ≠ [])
    (out : SwarmOutput) (uc mc : Option Rat)
    (hresp : w.swarmsResponse = .ok (some out) uc mc)
    (hout : out.pyBool = true) :
    (handle_stock_analysis env w).result.costVal = pyOrCost uc mc ∧
      (∀ c : Rat, uc = some c → c ≠ 0 → pyOrCost uc mc = some c) ∧
      ((uc = none ∨ uc = some 0) → pyOrCost uc mc = mc) := by
  refine ⟨?_, ?_, ?_⟩
  · rw [handle_success_path env w hkey hvalid out uc mc hresp hout]
    rfl
  · intro c hc hne
    rw [hc]
    simp [pyOrCost, hne]
  · rintro (h | h) <;> simp [pyOrCost, h]

section
attribute [local semireducible] Rat.mul Rat.add Rat.sub Rat.inv

/-- World on which the stated C9 fails: the AI response carries
`usage.billing_info.total_cost = 0` and `metadata.billing_info.total_cost = 5`. -/
def wCost : World :=
  { wQuotes with swarmsResponse := .ok (some (.text "narrative")) (some 0) (some 5) }

/-- Like `wCost` but with a nonzero usage cost. -/
def wCost2 : World :=
  { wQuotes with swarmsResponse := .ok (some (.text "narrative")) (some 7) (some 5) }

/-- Counterexample to C9 as stated: with a billing cost in both locations
(`usage` carries `0`, `metadata` carries `5`), the reported cost is `5`, not
the `usage` value `0` — Python `or` skips the falsy zero. -/
theorem c9_cost_counterexample :
    wCost.swarmsResponse =
      SwarmsResponse.ok (some (SwarmOutput.text "narrative")) (some 0) (some 5) ∧
    (handle_stock_analysis envOk wCost).result.costVal = some 5 ∧
    ¬(handle_stock_analysis envOk wCost).result.costVal = some 0 := by
  refine ⟨rfl, by decide, by decide⟩

/-- Witness for the amended C9: a nonzero usage cost of 7 is preferred over
the metadata cost of 5. -/
theorem c9_cost_witness :
    (handle_stock_analysis envOk wCost2).result.costVal = pyOrCost (some 7) (some 5) ∧
      pyOrCost (some 7) (some 5) = some 7 := by
  have H := c9_cost envOk wCost2 rfl (by decide)
    (SwarmOutput.text "narrative") (some 7) (some 5) rfl (by decide)
  exact ⟨H.1, H.2.1 7 rfl (by norm_num)⟩

end

/-! ### Claim C5 (the task embeds all symbols, not only the valid subset) -/

theorem joinSep_contains (sep : String) :
    ∀ (l : List String) (x : String), x ∈ l → x.data <:+: (joinSep sep l).data
  | [], x, hx => absurd hx (List.not_mem_nil x)
  | [y], x, hx => by
      rcases List.mem_singleton.mp hx with rfl
      exact List.infix_rfl
  | y :: z :: rest, x, hx => by
      rcases List.mem_cons.mp hx with rfl | hx2
      · rw [joinSep, String.data_append, String.data_append, List.append_assoc]
        exact infix_append_left_mono _ List.infix_rfl
      · rw [joinSep, String.data_append, String.data_append, List.append_assoc]
        exact infix_append_right_mono _
          (infix_append_right_mono _ (joinSep_contains sep (z :: rest) x hx2))

/-- The serialized market data contains every entry's serialization. -/
theorem dumpsMarketData_contains {md : List (String × TickerQuote)}
    {p : String × TickerQuote} (hp : p ∈ md) :
    (dumpsEntry p).data <:+: (dumpsMarketData md).data := by
  rw [dumpsMarketData, String.data_append, String.data_append, List.append_assoc]
  exact infix_append_right_mono _ (infix_append_left_mono _
    (joinSep_contains ", " (md.map dumpsEntry) _ (List.mem_map_of_mem _ hp)))

/-- Anything inside the serialized market data is inside the task text. -/
theorem buildTask_contains_dump (md : List (String × TickerQuote))
    (news : NewsResult) {pat : String}
    (h : pat.data <:+: (dumpsMarketData md).data) :
    strContainsB (buildTask md news) pat = true := by
  rw [strContainsB_iff]
  simp only [buildTask, String.data_append, List.append_assoc]
  exact infix_append_right_mono _ (infix_append_right_mono _
    (infix_append_right_mono _ (infix_append_left_mono _ h)))

/-- Past the quote and credential checks, the orchestrator always posts the
task built from the full market-data mapping and the news result. -/
theorem handle_task_eq (env : Env) (w : World)
    (hkey : pyTruthy env.SWARMS_API_KEY = true)
    (hvalid : validSymbols (fetch_market_data w) ≠ []) :
    (handle_stock_analysis env w).task =
      some (buildTask (fetch_market_data w) (fetch_market_news env w.newsOutcome)) ∧
    (handle_stock_analysis env w).swarmsCalled = true := by
  have hv : (validSymbols (fetch_market_data w)).isEmpty = false := by
    rw [List.isEmpty_eq_false]
    exact hvalid
  cases hsw : w.swarmsResponse with
  | httpError st bt => simp [handle_stock_analysis, hkey, hv, hsw]
  | ok output uc mc =>
      cases output with
      | none => simp [handle_stock_analysis, hkey, hv, hsw]
      | some out =>
          cases hob : out.pyBool <;>
            simp [handle_stock_analysis, hkey, hv, hsw, hob]

/-- Claim C5 (amended): when at least one symbol succeeds, the run proceeds
to the analysis step, but the task posted to the AI completion service embeds
the serialized entry of every symbol — the failed symbols' error markers
included — not only the successful subset; only `symbolsAnalyzed` reflects
the valid subset. -/
theorem c5_task_all_symbols (env : Env) (w : World)
    (hkey : pyTruthy env.SWARMS_API_KEY = true)
    (hvalid : validSymbols (fetch_market_data w) ≠ []) :
    ∃ t, (handle_stock_analysis env w).task = some t ∧
      (handle_stock_analysis env w).swarmsCalled = true ∧
      ∀ p ∈ fetch_market_data w, strContainsB t (dumpsEntry p) = true := by
  obtain ⟨ht, hsw⟩ := handle_task_eq env w hkey hvalid
  refine ⟨_, ht, hsw, ?_⟩
  intro p hp
  exact buildTask_contains_dump _ _ (dumpsMarketData_contains hp)

section
attribute [local semireducible] Rat.mul Rat.add Rat.sub Rat.inv

/-- World where only SPY succeeds; the other five symbols fail upstream. -/
def wPartial : World :=
  { wQuotes with
      chartOutcome := fun s =>
        if s = "SPY" then chartOkOutcome else .httpError 500 "boom" }

set_option maxRecDepth 100000 in
/-- Counterexample to C5 as stated: with one valid symbol out of six, the
task still contains the failed symbol NVDA's entry (its error marker), so it
does not contain data only for the symbols that succeeded. -/
theorem c5_counterexample :
    validSymbols (fetch_market_data wPartial) = ["SPY"] ∧
    List.lookup "NVDA" (fetch_market_data wPartial) =
      some (TickerQuote.failure "Failed to fetch data: HTTP 500: boom") ∧
    strContainsB ((handle_stock_analysis envOk wPartial).task.getD "")
      "\"NVDA\": \x7b\"error\": \"Failed to fetch data: HTTP 500: boom\"\x7d" = true := by
  refine ⟨by decide, by decide, by rfl⟩

/-- Witness for the amended C5 at the partially-failing world. -/
theorem c5_task_all_symbols_witness :
    strContainsB ((handle_stock_analysis envOk wPartial).task.getD "")
      (dumpsEntry ("NVDA",
        TickerQuote.failure "Failed to fetch data: HTTP 500: boom")) = true := by
  obtain ⟨t, ht, -, hall⟩ := c5_task_all_symbols envOk wPartial rfl (by decide)
  rw [ht]
  exact hall _ (by decide)

end

/-! ### Claim C7 (the news-catalyst phrase appears iff news is available) -/

def newsPhrase : String := "incorporating news catalysts"

/-- Fixed template chunks of the task f-string, in source order. -/
def taskA1 : String := "Analyze the following real market data"

def taskA3 : String := ":\n\nMARKET DATA:\n"

def taskC5 : String := "\n\n"

def taskNS : String := "NEWS STATUS: "

def taskC7 : String := "\n\nProvide comprehensive analysis with:\n1. Technical analysis with key levels and trends\n2. Fundamental analysis "

def taskC8 : String := "based on price action and market structure"

def taskC9 : String := "\n3. Trading recommendations with entry/exit points\n4. Risk assessment and position sizing\n5. Key levels to watch for tomorrow\x27s session"

theorem emptyStr_data : ("" : String).data = ([] : List Char) := rfl

theorem not_infix_of_B {p l : List Char} (h : listInfixB p l = false) :
    ¬p <:+: l := by
  intro hcon
  rw [← listInfixB_iff, h] at hcon
  exact Bool.noConfusion hcon

/-- Character-level decomposition of the task when news is an
unavailability string. -/
theorem buildTask_msg_data (md : List (String × TickerQuote)) (s : String)
    (hunav : strContainsB s "unavailable" = true) :
    (buildTask md (NewsResult.msg s)).data =
      taskA1.data ++ (taskA3.data ++ ((dumpsMarketData md).data ++
        (taskC5.data ++ (taskNS.data ++ (s.data ++
          (taskC7.data ++ (taskC8.data ++ taskC9.data))))))) := by
  simp only [buildTask, hunav, Bool.not_true, Bool.false_eq_true, if_false,
    if_true, String.data_append, emptyStr_data, List.nil_append,
    List.append_assoc, taskA1, taskA3, taskC5, taskNS, taskC7, taskC8, taskC9]

/-- Character-level decomposition of the task when news is a list of
articles. -/
theorem buildTask_articles_data (md : List (String × TickerQuote))
    (l : List NewsArticle) :
    (buildTask md (NewsResult.articles l)).data =
      taskA1.data ++ (" and news".data ++ (taskA3.data ++
        ((dumpsMarketData md).data ++ (taskC5.data ++
          (("MARKET NEWS:\n" ++ dumpsNewsResult (NewsResult.articles l)).data ++
            (taskC7.data ++ (newsPhrase.data ++ taskC9.data))))))) := by
  simp only [buildTask, if_true, String.data_append, List.append_assoc,
    taskA1, taskA3, taskC5, taskC7, taskC9, newsPhrase]

/-- With available news the task text contains the catalyst phrase. -/
theorem articles_task_phrase (md : List (String × TickerQuote))
    (l : List NewsArticle) :
    strContainsB (buildTask md (NewsResult.articles l)) newsPhrase = true := by
  rw [strContainsB_iff, buildTask_articles_data]
  exact infix_append_right_mono _ (infix_append_right_mono _
    (infix_append_right_mono _ (infix_append_right_mono _
      (infix_append_right_mono _ (infix_append_right_mono _
        (infix_append_right_mono _ (infix_append_left_mono _ List.infix_rfl)))))))

set_option maxRecDepth 100000 in
/-- With unavailable news the task text does not contain the catalyst
phrase, as long as neither the serialized market data nor the news string
happens to contain it (every fixed boundary of the template is guarded by a
newline or checked by exhaustive split search, so no occurrence can span
chunks). -/
theorem msg_task_no_phrase (md : List (String × TickerQuote)) (s : String)
    (hunav : strContainsB s "unavailable" = true)
    (hdump : strContainsB (dumpsMarketData md) newsPhrase = false)
    (hmsg : strContainsB s newsPhrase = false) :
    strContainsB (buildTask md (NewsResult.msg s)) newsPhrase = false := by
  rw [Bool.eq_false_iff]
  intro hcon
  rw [strContainsB_iff, buildTask_msg_data md s hunav] at hcon
  have hT : ¬newsPhrase.data <:+: (taskC7.data ++ (taskC8.data ++ taskC9.data)) :=
    not_infix_of_B (by decide)
  have hL5 : ¬newsPhrase.data <:+:
      (s.data ++ (taskC7.data ++ (taskC8.data ++ taskC9.data))) :=
    not_infix_append (not_infix_of_B hmsg) hT fun i h1 h2 hsp =>
      span_right_head (c := '\n') (by rfl) (by decide) i h1 h2 hsp.2
  have hL4 : ¬newsPhrase.data <:+: (taskNS.data ++
      (s.data ++ (taskC7.data ++ (taskC8.data ++ taskC9.data)))) :=
    not_infix_append (not_infix_of_B (by decide)) hL5 fun i h1 h2 hsp =>
      spanLeftFreeB_spec (by decide) i h1 h2 hsp.1
  have hL3 : ¬newsPhrase.data <:+: (taskC5.data ++ (taskNS.data ++
      (s.data ++ (taskC7.data ++ (taskC8.data ++ taskC9.data))))) :=
    not_infix_append (not_infix_of_B (by decide)) hL4 fun i h1 h2 hsp =>
      spanLeftFreeB_spec (by decide) i h1 h2 hsp.1
  have hL2 : ¬newsPhrase.data <:+: ((dumpsMarketData md).data ++
      (taskC5.data ++ (taskNS.data ++ (s.data ++
        (taskC7.data ++ (taskC8.data ++ taskC9.data)))))) :=
    not_infix_append (not_infix_of_B hdump) hL3 fun i h1 h2 hsp =>
      span_right_head (c := '\n') (by rfl) (by decide) i h1 h2 hsp.2
  have hL1 : ¬newsPhrase.data <:+: (taskA3.data ++ ((dumpsMarketData md).data ++
      (taskC5.data ++ (taskNS.data ++ (s.data ++
        (taskC7.data ++ (taskC8.data ++ taskC9.data))))))) :=
    not_infix_append (not_infix_of_B (by decide)) hL2 fun i h1 h2 hsp =>
      spanLeftFreeB_spec (by decide) i h1 h2 hsp.1
  have hL0 : ¬newsPhrase.data <:+: (taskA1.data ++ (taskA3.data ++
      ((dumpsMarketData md).data ++ (taskC5.data ++ (taskNS.data ++ (s.data ++
        (taskC7.data ++ (taskC8.data ++ taskC9.data)))))))) :=
    not_infix_append (not_infix_of_B (by decide)) hL1 fun i h1 h2 hsp =>
      spanLeftFreeB_spec (by decide) i h1 h2 hsp.1
  exact hL0 hcon

/-- With unavailable news the task carries the news-status line. -/
theorem msg_task_news_status (md : List (String × TickerQuote)) (s : String)
    (hunav : strContainsB s "unavailable" = true) :
    strContainsB (buildTask md (NewsResult.msg s)) ("NEWS STATUS: " ++ s) = true := by
  rw [strContainsB_iff, buildTask_msg_data md s hunav, String.data_append]
  refine infix_append_right_mono _ (infix_append_right_mono _
    (infix_append_right_mono _ (infix_append_right_mono _ ?_)))
  exact (show taskNS.data ++ s.data <+: taskNS.data ++ (s.data ++
      (taskC7.data ++ (taskC8.data ++ taskC9.data))) from
    ⟨taskC7.data ++ (taskC8.data ++ taskC9.data), by rw [List.append_assoc]⟩).isInfix

/-- With unavailable news the task carries the degraded instruction. -/
theorem msg_task_degraded (md : List (String × TickerQuote)) (s : String)
    (hunav : strContainsB s "unavailable" = true) :
    strContainsB (buildTask md (NewsResult.msg s))
      "based on price action and market structure" = true := by
  rw [strContainsB_iff, buildTask_msg_data md s hunav]
  exact infix_append_right_mono _ (infix_append_right_mono _
    (infix_append_right_mono _ (infix_append_right_mono _
      (infix_append_right_mono _ (infix_append_right_mono _
        (infix_append_right_mono _ (infix_append_left_mono _ List.infix_rfl)))))))

/-- Claim C7: past the quote/credential checks, and provided the upstream
data does not itself contain the catalyst phrase, the task posted to the AI
service contains `'incorporating news catalysts'` iff the News Fetcher
returned articles; when news is the unavailability string, the task instead
carries the `NEWS STATUS:` line and the degraded instruction. -/
theorem c7_task_phrase (env : Env) (w : World)
    (hkey : pyTruthy env.SWARMS_API_KEY = true)
    (hvalid : validSymbols (fetch_market_data w) ≠ [])
    (hdump : strContainsB (dumpsMarketData (fetch_market_data w)) newsPhrase = false)
    (hmsg : ∀ s, fetch_market_news env w.newsOutcome = NewsResult.msg s →
      strContainsB s newsPhrase = false) :
    ∃ t, (handle_stock_analysis env w).task = some t ∧
      (strContainsB t newsPhrase = true ↔
        ∃ l, fetch_market_news env w.newsOutcome = NewsResult.articles l) ∧
      (∀ s, fetch_market_news env w.newsOutcome = NewsResult.msg s →
        strContainsB t ("NEWS STATUS: " ++ s) = true ∧
        strContainsB t "based on price action and market structure" = true) := by
  obtain ⟨ht, -⟩ := handle_task_eq env w hkey hvalid
  have hunavOf : ∀ s, fetch_market_news env w.newsOutcome = NewsResult.msg s →
      strContainsB s "unavailable" = true := by
    intro s hs
    rcases fetch_news_shape env w.newsOutcome with ⟨raws, hr⟩ | ⟨s2, hs2, hc2⟩
    · rw [hs] at hr
      exact NewsResult.noConfusion hr
    · rw [hs] at hs2
      injection hs2 with he
      rw [he]
      exact hc2
  refine ⟨_, ht, ?_, ?_⟩
  · cases hn : fetch_market_news env w.newsOutcome with
    | articles l =>
        constructor
        · intro _
          exact ⟨l, rfl⟩
        · intro _
          exact articles_task_phrase _ l
    | msg s =>
        rw [msg_task_no_phrase _ s (hunavOf s hn) hdump (hmsg s hn)]
        constructor
        · intro hcon
          exact absurd hcon (by simp)
        · rintro ⟨l, hl⟩
          exact NewsResult.noConfusion hl
  · intro s hs
    rw [hs]
    exact ⟨msg_task_news_status _ s (hunavOf s hs), msg_task_degraded _ s (hunavOf s hs)⟩

section
attribute [local semireducible] Rat.mul Rat.add Rat.sub Rat.inv

/-- Like `wPartial` but with one news article available. -/
def wPartialNews : World :=
  { wPartial with newsOutcome := .payload none (.jlist [rawHi]) }

set_option maxRecDepth 400000 in
/-- Witness for C7 at a concrete world with available news: the posted task
contains the catalyst phrase. -/
theorem c7_task_phrase_witness :
    strContainsB ((handle_stock_analysis envOk wPartialNews).task.getD "")
      newsPhrase = true := by
  have hm : ∀ s, fetch_market_news envOk wPartialNews.newsOutcome = NewsResult.msg s →
      strContainsB s newsPhrase = false := by
    intro s hs
    rw [show fetch_market_news envOk wPartialNews.newsOutcome =
        NewsResult.articles [processArticle rawHi] from rfl] at hs
    exact NewsResult.noConfusion hs
  obtain ⟨t, ht, hiff, -⟩ :=
    c7_task_phrase envOk wPartialNews rfl (by decide) (by decide) hm
  rw [ht]
  exact hiff.mpr ⟨[processArticle rawHi], by rfl⟩

end

end StockAgent
